import Mathlib

/-!
Verification development for the yoga-saas-platform-settings repository.

This file embeds, as Lean definitions, the identity-resolution logic,
the authenticated request wrapper, the settings save/update handlers and
the build-time cache-busting script of the repository, and proves the
specified properties about them.

JavaScript strings that may be `null`/`undefined` are modelled as
`Option String`; the JavaScript `||` operator (which treats both `null`
and the empty string as falsy) is modelled by `jsOr`.  Browser storage
(`sessionStorage` / `localStorage`) is modelled as a lookup function
`Storage := String → Option String`.
-/

/-- Browser storage (sessionStorage / localStorage): key-value lookup. -/
def Storage : Type := String → Option String

/-- The empty storage: every `getItem` returns `null`. -/
def emptyStorage : Storage := fun _ => none

/-- JavaScript truthiness of a nullable string: `null`, `undefined` and
the empty string are falsy, every other string is truthy. -/
def truthy : Option String → Bool
  | none => false
  | some s => s != ""

/-- JavaScript `a || b` on nullable strings: returns `a` when `a` is
truthy, otherwise `b`. -/
def jsOr (a b : Option String) : Option String :=
  if truthy a then a else b

/-- JavaScript `a || d` with a string literal default `d`. -/
def jsOrD (a : Option String) (d : String) : String :=
  if truthy a then a.getD d else d

/-- Models `if (x) url.searchParams.set(k, x)`: the parameter is placed
only when the value is truthy. -/
def placeIfTruthy (o : Option String) : Option String :=
  if truthy o then o else none

/-- Auth info cached from the API response
(`AuthInfo` interface in wixUtils). -/
structure AuthInfo where
  instanceId : Option String
  compId : Option String
  instanceToken : Option String
  isAuthenticated : Bool
deriving DecidableEq, Repr

/-- The compId selection chain of `buildDashboardUrl` (wixUtils,
part_000 line 110):
`authInfo?.compId || storedCompId || urlParams.compId || currentCompId`. -/
def selectedCompId (authInfo : Option AuthInfo) (storedCompId urlCompId currentCompId : Option String) : Option String :=
  jsOr (jsOr (jsOr (authInfo.bind (·.compId)) storedCompId) urlCompId) currentCompId

/-- The instance selection chain of `buildDashboardUrl` (wixUtils,
part_000 line 111):
`authInfo?.instanceToken || storedInstance || urlParams.instance || currentInstance`. -/
def selectedInstance (authInfo : Option AuthInfo) (storedInstance urlInstance currentInstance : Option String) : Option String :=
  jsOr (jsOr (jsOr (authInfo.bind (·.instanceToken)) storedInstance) urlInstance) currentInstance

/-- The `compId` and `instance` query parameters that `buildDashboardUrl`
(wixUtils, part_000 lines 91-159) places in the returned URL.
Inputs: the cached auth info, the two session-storage entries, the URL
query parameters read via `getWixParams`, the parameters re-read from
`window.location.href`, whether the app runs inside an iframe, and the
parent-frame parameters (`none` models the access throwing). -/
def buildDashboardUrlParams (authInfo : Option AuthInfo)
    (storedCompId storedInstance : Option String)
    (urlCompId urlInstance : Option String)
    (currentCompId currentInstance : Option String)
    (inIframe : Bool)
    (parentParams : Option (Option String × Option String)) :
    Option String × Option String :=
  let compId := selectedCompId authInfo storedCompId urlCompId currentCompId
  let inst := selectedInstance authInfo storedInstance urlInstance currentInstance
  if !truthy compId && !truthy inst then
    -- `if (!compId && !instance)`: parent-frame fallback, else base URL
    if inIframe then
      match parentParams with
      | some (parentCompId, parentInstance) =>
        if truthy parentCompId || truthy parentInstance then
          (placeIfTruthy parentCompId, placeIfTruthy parentInstance)
        else (none, none)
      | none => (none, none)
    else (none, none)
  else
    (placeIfTruthy compId, placeIfTruthy inst)

/-- Spec-side selection of C1 as literally stated: the first non-null
source, regardless of emptiness. -/
def firstSome : List (Option String) → Option String
  | [] => none
  | o :: t => match o with
    | some v => some v
    | none => firstSome t

/-- Spec-side selection as amended: the first source holding a
non-empty string (JS-truthy value), `none` when there is none. -/
def firstTruthy (l : List (Option String)) : Option String :=
  (l.find? truthy).join

example : selectedCompId (some ⟨none, some "", none, false⟩) (some "sess") none none = some "sess" := by decide
example : firstSome [some "", some "sess", none, none] = some "" := by decide
example : firstTruthy [some "", some "sess", none, none] = some "sess" := by decide

/-!  ### Decoding a Wix instance token (wixUtils.decodeWixInstance)  -/

/-- JavaScript `str.split(sep)` for a single-character separator, on
character lists.  `"".split('.')` gives `[""]`, matching JS. -/
def jsSplitChar (sep : Char) : List Char → List (List Char)
  | [] => [[]]
  | c :: rest =>
    if c = sep then [] :: jsSplitChar sep rest
    else
      match jsSplitChar sep rest with
      | [] => [[c]]
      | h :: t => (c :: h) :: t

/-- Models `decodeWixInstance` (wixUtils.ts lines 129-139): takes the segment
of the instance before the first `'.'` (`const [encodedData] =
instance.split('.')`), base64-decodes it (`atob`) and JSON-parses the
result; the surrounding try/catch converts any failure into `null`.
The two fallible browser primitives are passed in as `Except`-valued
functions; the result is `Option`-valued, so the function is total by
construction. -/
def decodeWixInstance {J : Type} (atobFn : List Char → Except Unit (List Char))
    (jsonParseFn : List Char → Except Unit J) (inst : List Char) : Option J :=
  let encodedData := (jsSplitChar '.' inst).headD []
  match atobFn encodedData with
  | .error _ => none
  | .ok decodedData =>
    match jsonParseFn decodedData with
    | .error _ => none
    | .ok v => some v

theorem jsSplitChar_ne_nil (sep : Char) (s : List Char) : jsSplitChar sep s ≠ [] := by
  induction s with
  | nil => simp [jsSplitChar]
  | cons c rest ih =>
    simp only [jsSplitChar]
    split
    · simp
    · split
      · simp
      · simp

theorem jsSplitChar_headD (sep : Char) (s : List Char) :
    (jsSplitChar sep s).headD [] = s.takeWhile (· ≠ sep) := by
  induction s with
  | nil => simp [jsSplitChar]
  | cons c rest ih =>
    simp only [jsSplitChar]
    by_cases hc : c = sep
    · simp [hc, List.takeWhile_cons]
    · simp only [if_neg hc]
      rcases hsplit : jsSplitChar sep rest with _ | ⟨h, t⟩
      · exact absurd hsplit (jsSplitChar_ne_nil sep rest)
      · rw [hsplit] at ih
        simp only [List.headD_cons] at ih
        simp only [ne_eq, decide_not] at ih
        simp [List.takeWhile_cons, hc, ← ih]

/-!  ### Settings document and save handler (part_008 / index.tsx)  -/

/-- The `layout` section of the settings state (part_008 lines 42-60).
`showHeader` is read by `saveSettings` but absent from the defaults, so
it is `Option`-valued. -/
structure LayoutSettings where
  defaultView : String
  defaultMode : String
  defaultCalendarLayout : String
  calendarView : String
  showModeSwitcher : Bool
  showCalendarHeader : Bool
  headerTitle : String
  showFooter : Bool
  compactMode : Bool
  showCreatePlanOption : Bool
  showYogaClassesOption : Bool
  showInstructorInfo : Bool
  showClassDuration : Bool
  showClassLevel : Bool
  showBookingButton : Bool
  showWaitlistOption : Bool
  showHeader : Option Bool
deriving DecidableEq, Repr

/-- The `appearance` section (part_008 lines 61-68); `theme` is read by
`saveSettings` with a `|| 'light'` fallback but has no default. -/
structure AppearanceSettings where
  primaryColor : String
  backgroundColor : String
  headerColor : String
  borderRadius : Nat
  fontFamily : String
  fontSize : String
  theme : Option String
deriving DecidableEq, Repr

/-- The `calendar` section (part_008 lines 69-77). -/
structure CalendarSettings where
  weekStartsOn : String
  timeFormat : String
  showWeekNumbers : Bool
  eventDisplay : String
  minTime : String
  maxTime : String
  showEventTime : Bool
deriving DecidableEq, Repr

/-- The `behavior` section (part_008 lines 78-84). -/
structure BehaviorSettings where
  autoSave : Bool
  confirmBeforeDelete : Bool
  animationsEnabled : Bool
  showTooltips : Bool
  language : String
deriving DecidableEq, Repr

/-- The `uiPreferences` section (part_008 lines 85-87). -/
structure UIPreferencesSettings where
  clickAction : String
deriving DecidableEq, Repr

/-- The full nested settings document held in React state. -/
structure Settings where
  layout : LayoutSettings
  appearance : AppearanceSettings
  calendar : CalendarSettings
  behavior : BehaviorSettings
  uiPreferences : UIPreferencesSettings
deriving DecidableEq, Repr

/-- The initial settings state (part_008 lines 41-88). -/
def defaultSettings : Settings where
  layout :=
    { defaultView := "yogaClasses", defaultMode := "calendar",
      defaultCalendarLayout := "month", calendarView := "month",
      showModeSwitcher := true, showCalendarHeader := true,
      headerTitle := "Yoga Classes", showFooter := false, compactMode := false,
      showCreatePlanOption := true, showYogaClassesOption := true,
      showInstructorInfo := true, showClassDuration := true,
      showClassLevel := true, showBookingButton := true,
      showWaitlistOption := true, showHeader := none }
  appearance :=
    { primaryColor := "#2563eb", backgroundColor := "#ffffff",
      headerColor := "#f8f9fa", borderRadius := 8,
      fontFamily := "default", fontSize := "medium", theme := none }
  calendar :=
    { weekStartsOn := "sunday", timeFormat := "12h", showWeekNumbers := false,
      eventDisplay := "block", minTime := "06:00", maxTime := "22:00",
      showEventTime := false }
  behavior :=
    { autoSave := true, confirmBeforeDelete := true, animationsEnabled := true,
      showTooltips := true, language := "en" }
  uiPreferences := { clickAction := "tooltip" }

/-- A widget-property value (widget props hold strings, booleans and
numbers; `undef` models a JS `undefined` read). -/
inductive PropValue where
  | str (s : String)
  | bool (b : Bool)
  | nat (n : Nat)
  | undef
deriving DecidableEq, Repr

/-- Toast notifications raised through `useToast`. -/
inductive ToastKind where
  | success
  | error
deriving DecidableEq, Repr

structure Toast where
  kind : ToastKind
  message : String
deriving DecidableEq, Repr

/-- The widget-property object built by `saveSettings` when running in
the Wix editor (part_008 lines 247-259). -/
def saveWidgetProps (s : Settings) : List (String × PropValue) :=
  [ ("primaryColor", .str s.appearance.primaryColor),
    ("theme", .str (jsOrD s.appearance.theme "light")),
    ("fontSize", .str s.appearance.fontSize),
    ("borderRadius", .nat s.appearance.borderRadius),
    ("defaultView", .str s.layout.defaultView),
    ("calendarView", .str s.layout.calendarView),
    ("showHeader", match s.layout.showHeader with
      | some b => .bool b
      | none => .undef),
    ("headerTitle", .str s.layout.headerTitle),
    ("compactMode", .bool s.layout.compactMode),
    ("language", .str s.behavior.language),
    ("animations", .bool s.behavior.animationsEnabled) ]

/-- The observable outcome of one run of `saveSettings`. -/
structure SaveOutcome where
  /-- The payload handed to `settingsAPI.saveUIPreferences`. -/
  backendPayload : Settings
  /-- The settings state after the run (no `setSettings` call exists in
  `saveSettings`, so this is always the input). -/
  settingsAfter : Settings
  toast : Option Toast
  widgetPropsPushed : Option (List (String × PropValue))
  showSuccessOverlay : Bool
  isSaving : Bool
deriving DecidableEq, Repr

/-- Models `saveSettings` (part_008 lines 239-274 / index.tsx lines 203-238):
sends the whole settings object to `saveUIPreferences`; on success and
in the Wix editor also pushes the widget props; on any rejection the
catch block shows the error toast; the finally block clears `isSaving`.
`backendResult` is the promise outcome of `saveUIPreferences` and
`widgetPropsResult` that of `setWidgetProps`. -/
def saveSettings (s : Settings) (backendResult : Except String Unit)
    (inWixEnvironment : Bool) (widgetPropsResult : Except String Unit) :
    SaveOutcome :=
  match backendResult with
  | .error _ =>
    { backendPayload := s, settingsAfter := s,
      toast := some ⟨.error, "Failed to save settings"⟩,
      widgetPropsPushed := none, showSuccessOverlay := false, isSaving := false }
  | .ok _ =>
    if inWixEnvironment then
      match widgetPropsResult with
      | .error _ =>
        { backendPayload := s, settingsAfter := s,
          toast := some ⟨.error, "Failed to save settings"⟩,
          widgetPropsPushed := some (saveWidgetProps s),
          showSuccessOverlay := false, isSaving := false }
      | .ok _ =>
        { backendPayload := s, settingsAfter := s,
          toast := some ⟨.success, "Settings saved successfully"⟩,
          widgetPropsPushed := some (saveWidgetProps s),
          showSuccessOverlay := true, isSaving := false }
    else
      { backendPayload := s, settingsAfter := s,
        toast := some ⟨.success, "Settings saved successfully"⟩,
        widgetPropsPushed := none, showSuccessOverlay := true, isSaving := false }

example :
    (saveSettings defaultSettings (.error "network") true (.ok ())).toast
      = some ⟨.error, "Failed to save settings"⟩ := by decide

/-!  ### Live preview push on setting change (part_008 updateSetting)  -/

/-- The `flattenedUpdate` object built by `updateSetting`
(part_008 lines 288-320): one independent `if (key === '…')` per
whitelisted field of each section, each adding a single flat key. -/
def flattenedUpdate {α : Type} (section_ key : String) (value : α) :
    List (String × α) :=
  if section_ = "appearance" then
    (if key = "primaryColor" then [("primaryColor", value)] else []) ++
    (if key = "fontSize" then [("fontSize", value)] else []) ++
    (if key = "borderRadius" then [("borderRadius", value)] else [])
  else if section_ = "layout" then
    (if key = "defaultView" then [("defaultView", value)] else []) ++
    (if key = "defaultMode" then [("defaultMode", value)] else []) ++
    (if key = "defaultCalendarLayout" then [("defaultCalendarLayout", value)] else []) ++
    (if key = "calendarView" then [("calendarView", value)] else []) ++
    (if key = "showModeSwitcher" then [("showModeSwitcher", value)] else []) ++
    (if key = "showCalendarHeader" then [("showCalendarHeader", value)] else []) ++
    (if key = "headerTitle" then [("headerTitle", value)] else []) ++
    (if key = "compactMode" then [("compactMode", value)] else []) ++
    (if key = "showCreatePlanOption" then [("showCreatePlanOption", value)] else []) ++
    (if key = "showYogaClassesOption" then [("showYogaClassesOption", value)] else []) ++
    (if key = "showInstructorInfo" then [("showInstructorInfo", value)] else []) ++
    (if key = "showClassDuration" then [("showClassDuration", value)] else []) ++
    (if key = "showClassLevel" then [("showClassLevel", value)] else []) ++
    (if key = "showBookingButton" then [("showBookingButton", value)] else []) ++
    (if key = "showWaitlistOption" then [("showWaitlistOption", value)] else [])
  else if section_ = "behavior" then
    (if key = "language" then [("language", value)] else []) ++
    (if key = "animationsEnabled" then [("animations", value)] else [])
  else if section_ = "calendar" then
    (if key = "weekStartsOn" then [("weekStartsOn", value)] else []) ++
    (if key = "timeFormat" then [("timeFormat", value)] else []) ++
    (if key = "showEventTime" then [("showEventTime", value)] else [])
  else if section_ = "uiPreferences" then
    (if key = "clickAction" then [("clickAction", value)] else [])
  else []

/-- Spec-side whitelist of preview-synced fields: maps a
`(section, key)` pair to the flattened widget-prop key it is pushed
under, `none` when the field is not preview-synced. -/
def flatKeyFor (section_ key : String) : Option String :=
  if section_ = "appearance" then
    if key = "primaryColor" then some "primaryColor"
    else if key = "fontSize" then some "fontSize"
    else if key = "borderRadius" then some "borderRadius"
    else none
  else if section_ = "layout" then
    if key = "defaultView" then some "defaultView"
    else if key = "defaultMode" then some "defaultMode"
    else if key = "defaultCalendarLayout" then some "defaultCalendarLayout"
    else if key = "calendarView" then some "calendarView"
    else if key = "showModeSwitcher" then some "showModeSwitcher"
    else if key = "showCalendarHeader" then some "showCalendarHeader"
    else if key = "headerTitle" then some "headerTitle"
    else if key = "compactMode" then some "compactMode"
    else if key = "showCreatePlanOption" then some "showCreatePlanOption"
    else if key = "showYogaClassesOption" then some "showYogaClassesOption"
    else if key = "showInstructorInfo" then some "showInstructorInfo"
    else if key = "showClassDuration" then some "showClassDuration"
    else if key = "showClassLevel" then some "showClassLevel"
    else if key = "showBookingButton" then some "showBookingButton"
    else if key = "showWaitlistOption" then some "showWaitlistOption"
    else none
  else if section_ = "behavior" then
    if key = "language" then some "language"
    else if key = "animationsEnabled" then some "animations"
    else none
  else if section_ = "calendar" then
    if key = "weekStartsOn" then some "weekStartsOn"
    else if key = "timeFormat" then some "timeFormat"
    else if key = "showEventTime" then some "showEventTime"
    else none
  else if section_ = "uiPreferences" then
    if key = "clickAction" then some "clickAction"
    else none
  else none

/-- The update pushed to the widget-property store by `updateSetting`
(part_008 lines 322-329): pushed only when the flattened object is
non-empty and the app runs in the Wix environment. -/
def pushedUpdate {α : Type} (section_ key : String) (value : α)
    (inWixEnvironment : Bool) : List (String × α) :=
  let f := flattenedUpdate section_ key value
  if f.length != 0 && inWixEnvironment then f else []

/-- Models `updateWidgetConfig` (wix-integration.ts lines 146-170): with no
`widget.setProp` available returns `false` and writes nothing;
otherwise calls `setProp` for each entry in order, aborting at the
first failing call.  Returns whether every call succeeded together
with the writes that were performed. -/
def updateWidgetConfig {α : Type} (hasSetProp : Bool)
    (setPropOk : String → Bool) (config : List (String × α)) :
    Bool × List (String × α) :=
  if !hasSetProp then (false, [])
  else
    (config.all (fun kv => setPropOk kv.1),
     config.takeWhile (fun kv => setPropOk kv.1))

example : flattenedUpdate "behavior" "animationsEnabled" (0 : Nat)
    = [("animations", 0)] := by decide
example : flattenedUpdate "appearance" "backgroundColor" (0 : Nat) = [] := by decide
example : pushedUpdate "layout" "headerTitle" (0 : Nat) false = [] := by decide

/-- The flattened update of `updateSetting` is exactly the singleton at
the whitelisted flat key, and empty off the whitelist. -/
theorem flattenedUpdate_eq_flatKeyFor {α : Type} (section_ key : String) (value : α) :
    flattenedUpdate section_ key value =
      match flatKeyFor section_ key with
      | some fk => [(fk, value)]
      | none => [] := by
  by_cases hs1 : section_ = "appearance"
  · subst hs1
    by_cases h1 : key = "primaryColor"
    · subst h1; simp [flattenedUpdate, flatKeyFor]
    by_cases h2 : key = "fontSize"
    · subst h2; simp [flattenedUpdate, flatKeyFor]
    by_cases h3 : key = "borderRadius"
    · subst h3; simp [flattenedUpdate, flatKeyFor]
    simp [flattenedUpdate, flatKeyFor, h1, h2, h3]
  by_cases hs2 : section_ = "layout"
  · subst hs2
    by_cases h1 : key = "defaultView"
    · subst h1; simp [flattenedUpdate, flatKeyFor]
    by_cases h2 : key = "defaultMode"
    · subst h2; simp [flattenedUpdate, flatKeyFor]
    by_cases h3 : key = "defaultCalendarLayout"
    · subst h3; simp [flattenedUpdate, flatKeyFor]
    by_cases h4 : key = "calendarView"
    · subst h4; simp [flattenedUpdate, flatKeyFor]
    by_cases h5 : key = "showModeSwitcher"
    · subst h5; simp [flattenedUpdate, flatKeyFor]
    by_cases h6 : key = "showCalendarHeader"
    · subst h6; simp [flattenedUpdate, flatKeyFor]
    by_cases h7 : key = "headerTitle"
    · subst h7; simp [flattenedUpdate, flatKeyFor]
    by_cases h8 : key = "compactMode"
    · subst h8; simp [flattenedUpdate, flatKeyFor]
    by_cases h9 : key = "showCreatePlanOption"
    · subst h9; simp [flattenedUpdate, flatKeyFor]
    by_cases h10 : key = "showYogaClassesOption"
    · subst h10; simp [flattenedUpdate, flatKeyFor]
    by_cases h11 : key = "showInstructorInfo"
    · subst h11; simp [flattenedUpdate, flatKeyFor]
    by_cases h12 : key = "showClassDuration"
    · subst h12; simp [flattenedUpdate, flatKeyFor]
    by_cases h13 : key = "showClassLevel"
    · subst h13; simp [flattenedUpdate, flatKeyFor]
    by_cases h14 : key = "showBookingButton"
    · subst h14; simp [flattenedUpdate, flatKeyFor]
    by_cases h15 : key = "showWaitlistOption"
    · subst h15; simp [flattenedUpdate, flatKeyFor]
    simp [flattenedUpdate, flatKeyFor, h1, h2, h3, h4, h5, h6, h7, h8, h9,
      h10, h11, h12, h13, h14, h15]
  by_cases hs3 : section_ = "behavior"
  · subst hs3
    by_cases h1 : key = "language"
    · subst h1; simp [flattenedUpdate, flatKeyFor]
    by_cases h2 : key = "animationsEnabled"
    · subst h2; simp [flattenedUpdate, flatKeyFor]
    simp [flattenedUpdate, flatKeyFor, h1, h2]
  by_cases hs4 : section_ = "calendar"
  · subst hs4
    by_cases h1 : key = "weekStartsOn"
    · subst h1; simp [flattenedUpdate, flatKeyFor]
    by_cases h2 : key = "timeFormat"
    · subst h2; simp [flattenedUpdate, flatKeyFor]
    by_cases h3 : key = "showEventTime"
    · subst h3; simp [flattenedUpdate, flatKeyFor]
    simp [flattenedUpdate, flatKeyFor, h1, h2, h3]
  by_cases hs5 : section_ = "uiPreferences"
  · subst hs5
    by_cases h1 : key = "clickAction"
    · subst h1; simp [flattenedUpdate, flatKeyFor]
    simp [flattenedUpdate, flatKeyFor, h1]
  simp [flattenedUpdate, flatKeyFor, hs1, hs2, hs3, hs4, hs5]

/-!  ### Authenticated HTTP layer (src/services/api.ts)  -/

/-- A header or query-parameter map (JS plain object of strings). -/
def HMap : Type := String → Option String

/-- The empty object. -/
def hempty : HMap := fun _ => none

/-- Set one key (`obj[k] = v` / `searchParams.set(k, v)`). -/
def hset (m : HMap) (k v : String) : HMap :=
  fun q => if q = k then some v else m q

/-- JS object spread / `Object.assign(base, extra)`: keys of `extra`
win over keys of `base`. -/
def hmerge (base extra : HMap) : HMap :=
  fun k => match extra k with
    | some v => some v
    | none => base k

/-- Models `getWixHeaders` (api.ts lines 50-64): compId and instance are read
from session storage with a localStorage fallback; the two `X-Wix-*`
headers are set only when the value is truthy, while `X-Tenant-Id` is
always set to the tenant id built from `compId || 'default'` and
`instance || 'default'` joined by an underscore. -/
def getWixHeaders (sess loc : Storage) : HMap :=
  let compId := jsOr (sess "wixCompId") (loc "wixCompId")
  let inst := jsOr (sess "wixInstance") (loc "wixInstance")
  let headers := hempty
  let headers := if truthy compId then hset headers "X-Wix-Comp-Id" (compId.getD "") else headers
  let headers := if truthy inst then hset headers "X-Wix-Instance" (inst.getD "") else headers
  hset headers "X-Tenant-Id" (jsOrD compId "default" ++ "_" ++ jsOrD inst "default")

/-- Models `getWixParams` of api.ts (lines 67-77): always produces a `compId`
and an `instance` entry, defaulting to the literal `"default"`. -/
def apiGetWixParams (sess loc : Storage) : HMap :=
  let compId := jsOrD (jsOr (sess "wixCompId") (loc "wixCompId")) "default"
  let inst := jsOrD (jsOr (sess "wixInstance") (loc "wixInstance")) "default"
  hset (hset hempty "compId" compId) "instance" inst

/-- The default headers of the axios instance (api.ts lines 80-89). -/
def axiosDefaultHeaders : HMap :=
  hset (hset (hset (hset hempty
    "Content-Type" "application/json")
    "Cache-Control" "no-cache, no-store, must-revalidate")
    "Pragma" "no-cache")
    "Expires" "0"

/-- The axios request interceptor (api.ts lines 92-126): assigns the
Wix headers onto the config headers, spreads the Wix params over the
config params, and adds a bearer `Authorization` header when an auth
token is stored. -/
def requestInterceptor (sess loc : Storage) (authToken : Option String)
    (headers params : HMap) : HMap × HMap :=
  let headers := hmerge headers (getWixHeaders sess loc)
  let params := hmerge params (apiGetWixParams sess loc)
  let headers := match authToken with
    | some t => hset headers "Authorization" ("Bearer " ++ t)
    | none => headers
  (headers, params)

/-- Transport used for an outbound request. -/
inductive Transport where
  | wixFetchWithAuth
  | axios
deriving DecidableEq, Repr

/-- The observable shape of one outbound HTTP request. -/
structure OutboundRequest where
  transport : Transport
  path : String
  headers : HMap
  params : HMap
  body : Option String

/-- Options argument of `makeAuthenticatedRequest`. -/
structure RequestOptions where
  method : Option String
  headers : HMap
  data : Option String
  params : HMap

/-- The request issued through `client.fetchWithAuth` by
`makeAuthenticatedRequest` (api.ts lines 149-174): Wix params set on
the URL, explicit default headers spread first, then `getWixHeaders()`,
then the caller's `options.headers`. -/
def wixFetchRequest (sess loc : Storage) (url : String)
    (options : RequestOptions) : OutboundRequest :=
  { transport := .wixFetchWithAuth, path := url,
    headers := hmerge (hmerge axiosDefaultHeaders (getWixHeaders sess loc))
      options.headers,
    params := apiGetWixParams sess loc,
    body := options.data }

/-- The axios fallback request of `makeAuthenticatedRequest` (api.ts
lines 183-195): `axiosConfig = { url, ...options, params: {...wixParams,
...options.params} }`, then the request interceptor runs on it. -/
def axiosFallbackRequest (sess loc : Storage) (authToken : Option String)
    (url : String) (options : RequestOptions) : OutboundRequest :=
  let configParams := hmerge (apiGetWixParams sess loc) options.params
  let configHeaders := hmerge axiosDefaultHeaders options.headers
  let interceptorResult := requestInterceptor sess loc authToken configHeaders configParams
  { transport := .axios, path := url, headers := interceptorResult.1,
    params := interceptorResult.2, body := options.data }

/-- Models `makeAuthenticatedRequest` (api.ts lines 142-200): when the Wix
client exposes `fetchWithAuth` it is tried first; on its failure, or
when no such client exists, the request goes through the axios
instance.  Returns the outbound requests issued, in order. -/
def makeAuthenticatedRequest (hasWixFetch : Bool) (wixFetchOk : Bool)
    (sess loc : Storage) (authToken : Option String)
    (url : String) (options : RequestOptions) : List OutboundRequest :=
  if hasWixFetch then
    if wixFetchOk then [wixFetchRequest sess loc url options]
    else [wixFetchRequest sess loc url options,
          axiosFallbackRequest sess loc authToken url options]
  else [axiosFallbackRequest sess loc authToken url options]

/-- Options with no method, headers, params or body. -/
def emptyOptions : RequestOptions :=
  { method := none, headers := hempty, data := none, params := hempty }

example :
    (getWixHeaders emptyStorage emptyStorage) "X-Tenant-Id"
      = some "default_default" := by rfl
example :
    ((makeAuthenticatedRequest false false emptyStorage emptyStorage none
      "/settings/ui-preferences" emptyOptions).headD
        ⟨.axios, "", hempty, hempty, none⟩).params "compId" = some "default" := by rfl

/-!  ### Wix client initialization (src/services/wix-integration.ts)  -/

/-- The character palette for generated component ids
(wix-integration.ts line 30). -/
def compIdChars : List Char := "abcdefghijklmnopqrstuvwxyz0123456789".toList

/-- Models `generateCompId` (wix-integration.ts lines 29-37): eight
`Math.random()` draws (modelled by `draws`, each an index below 36 into
the palette) appended to `comp-` and the millisecond timestamp. -/
def generateCompId (now : Nat) (draws : List Nat) : String :=
  let randomPart := String.mk ((List.range 8).map
    (fun i => compIdChars.getD (draws.getD i 0) 'a'))
  "comp-" ++ toString now ++ "-" ++ randomPart

/-- What the host SDK calls can do once `createClient` succeeded. -/
structure ClientCaps where
  /-- Whether `wixClient.widget && wixClient.widget.getProp` is truthy. -/
  hasGetProp : Bool
  /-- Whether `wixClient.widget && wixClient.widget.setProp` is truthy. -/
  hasSetProp : Bool
  /-- Outcome of `widget.getProp('compId')` (error = promise rejects). -/
  getPropCompId : Except Unit (Option String)
  /-- Outcome of `widget.getProp('instance')`. -/
  getPropInstance : Except Unit (Option String)
  /-- Outcome of `widget.setProp('compId', …)`. -/
  setPropOk : Bool

/-- One environment for a run of `initializeWixClient`: the outcome of
`createClient` plus the timestamp and random draws for a generated id. -/
structure SdkEnv where
  createClient : Except Unit ClientCaps
  now : Nat
  draws : List Nat

/-- The module-level mutable state of wix-integration.ts. -/
structure WixIntState where
  isInitialized : Bool
  compId : Option String
  instanceToken : Option String
deriving DecidableEq, Repr

/-- The module-load state (wix-integration.ts lines 9-24): nothing is
initialized, no compId, and the instance token is taken from the URL
`instance` query parameter when truthy. -/
def moduleInitState (urlInstance : Option String) : WixIntState :=
  { isInitialized := false, compId := none,
    instanceToken := if truthy urlInstance then urlInstance else none }

/-- Models `initializeWixClient` (wix-integration.ts lines 42-114).  Returns
the boolean result together with the new module state.  Faithful to the
source: an already-initialized module returns `true` immediately; a
`createClient` failure falls into the catch block which generates a
compId when none exists and returns `false`; otherwise the widget props
are read inside an inner try (a rejection aborts both reads), a missing
compId is generated and saved via `setProp` (its failure is swallowed),
and the function returns `true`. -/
def initializeWixClient (st : WixIntState) (env : SdkEnv) : Bool × WixIntState :=
  if st.isInitialized then (true, st)
  else
    match env.createClient with
    | .error _ =>
      -- catch block (lines 102-113): fallback compId, returns false
      let compId := if truthy st.compId then st.compId
        else some (generateCompId env.now env.draws)
      (false, { isInitialized := true, compId := compId,
                instanceToken := st.instanceToken })
    | .ok caps =>
      let (compId1, inst1) :=
        if caps.hasGetProp then
          match caps.getPropCompId with
          | .error _ => (st.compId, st.instanceToken)
          | .ok existingCompId =>
            let c := if truthy existingCompId then existingCompId else st.compId
            match caps.getPropInstance with
            | .error _ => (c, st.instanceToken)
            | .ok existingInstance =>
              (c, if truthy existingInstance && !truthy st.instanceToken
                  then existingInstance else st.instanceToken)
        else (st.compId, st.instanceToken)
      let compId2 := if truthy compId1 then compId1
        else some (generateCompId env.now env.draws)
      (true, { isInitialized := true, compId := compId2,
               instanceToken := inst1 })

example :
    (initializeWixClient (moduleInitState none)
      ⟨.error (), 1700000000000, [0, 1, 2, 3, 4, 5, 6, 7]⟩).2.compId
      = some "comp-1700000000000-abcdefgh" := by rfl

/-!  ### Build-time cache busting (add-cache-bust.js)

`html.replace(/\.js"/g, …)` with a string-literal pattern is leftmost,
non-overlapping, global literal replacement.  `replaceAll` models it on
character lists; `splitOnL` is the matching greedy decomposition of the
input into pattern-free chunks separated by pattern occurrences, and
`intercalateL` joins chunks back with a separator.  -/

/-- Greedy leftmost decomposition of `s` at occurrences of the literal
pattern `p`: the chunks between (non-overlapping) occurrences. -/
def splitOnL (p : List Char) (s : List Char) : List (List Char) :=
  if _hp : p = [] then [s]
  else
    match s with
    | [] => [[]]
    | c :: rest =>
      if p.isPrefixOf (c :: rest) then
        [] :: splitOnL p ((c :: rest).drop p.length)
      else
        match splitOnL p rest with
        | [] => [[c]]
        | h :: t => (c :: h) :: t
termination_by s.length
decreasing_by
  · have hl : 0 < p.length := List.length_pos.mpr _hp
    simp [List.length_drop]
    omega
  · simp

/-- JS `String.replace` with a global regex whose pattern is the string
literal `p`: every leftmost non-overlapping occurrence of `p` is
replaced by `r`, all other characters are kept. -/
def replaceAll (p r : List Char) (s : List Char) : List Char :=
  if _hp : p = [] then s
  else
    match s with
    | [] => []
    | c :: rest =>
      if p.isPrefixOf (c :: rest) then
        r ++ replaceAll p r ((c :: rest).drop p.length)
      else
        c :: replaceAll p r rest
termination_by s.length
decreasing_by
  · have hl : 0 < p.length := List.length_pos.mpr _hp
    simp [List.length_drop]
    omega
  · simp

/-- Join chunks with a separator. -/
def intercalateL (sep : List Char) : List (List Char) → List Char
  | [] => []
  | [x] => x
  | x :: y :: t => x ++ sep ++ intercalateL sep (y :: t)

theorem splitOnL_ne_nil (p s : List Char) : splitOnL p s ≠ [] := by
  induction s using splitOnL.induct p with
  | case1 x h => rw [splitOnL.eq_def]; simp [h]
  | case2 h => rw [splitOnL.eq_def]; simp [h]
  | case3 h c rest hpre ih =>
    rw [splitOnL]
    simp [h, hpre]
  | case4 h c rest hpre hnil ih => exact absurd hnil ih
  | case5 h c rest hpre hd tl hsplit ih =>
    rw [splitOnL]
    simp [h, hpre, hsplit]

/-- Joining the decomposition back with the pattern itself recovers the
input: the decomposition loses no characters. -/
theorem intercalateL_splitOnL (p s : List Char) :
    intercalateL p (splitOnL p s) = s := by
  induction s using splitOnL.induct p with
  | case1 x h =>
    rw [splitOnL.eq_def]
    simp [h, intercalateL]
  | case2 h =>
    rw [splitOnL.eq_def]
    simp [h, intercalateL]
  | case3 h c rest hpre ih =>
    rw [splitOnL]
    simp only [dif_neg h, if_pos hpre]
    obtain ⟨tail, htail⟩ := List.isPrefixOf_iff_prefix.mp hpre
    have hdrop : List.drop p.length (c :: rest) = tail := by
      rw [← htail, List.drop_left]
    rw [hdrop] at ih ⊢
    rcases hsp : splitOnL p tail with _ | ⟨hd, tl⟩
    · exact absurd hsp (splitOnL_ne_nil p _)
    · rw [hsp] at ih
      rw [intercalateL, ih, ← htail]
      simp
  | case4 h c rest hpre hnil ih => exact absurd hnil (splitOnL_ne_nil p rest)
  | case5 h c rest hpre hd tl hsplit ih =>
    rw [splitOnL]
    simp only [dif_neg h, if_neg hpre, hsplit]
    rw [hsplit] at ih
    cases tl with
    | nil =>
      rw [intercalateL] at ih ⊢
      simp [ih]
    | cons y t =>
      rw [intercalateL] at ih ⊢
      simp [← ih]

/-- The replacement equals the decomposition rejoined with the
replacement text: occurrences become `r`, chunks stay verbatim. -/
theorem replaceAll_eq_intercalateL (p r s : List Char) :
    replaceAll p r s = intercalateL r (splitOnL p s) := by
  induction s using splitOnL.induct p with
  | case1 x h =>
    rw [splitOnL.eq_def, replaceAll.eq_def]
    simp [h, intercalateL]
  | case2 h =>
    rw [splitOnL.eq_def, replaceAll.eq_def]
    simp [h, intercalateL]
  | case3 h c rest hpre ih =>
    rw [splitOnL, replaceAll]
    simp only [dif_neg h, if_pos hpre]
    rcases hsp : splitOnL p (List.drop p.length (c :: rest)) with _ | ⟨hd, tl⟩
    · exact absurd hsp (splitOnL_ne_nil p _)
    · rw [hsp] at ih
      rw [intercalateL, ih]
      simp
  | case4 h c rest hpre hnil ih => exact absurd hnil (splitOnL_ne_nil p rest)
  | case5 h c rest hpre hd tl hsplit ih =>
    rw [splitOnL, replaceAll]
    simp only [dif_neg h, if_neg hpre, hsplit]
    rw [hsplit] at ih
    cases tl with
    | nil =>
      rw [intercalateL] at ih ⊢
      simp [ih]
    | cons y t =>
      rw [intercalateL] at ih ⊢
      simp [← ih]

/-- The head chunk of the decomposition starts the input. -/
theorem splitOnL_head_starts (p s : List Char) :
    ∀ hd tl, splitOnL p s = hd :: tl → hd <+: s := by
  induction s using splitOnL.induct p with
  | case1 x h =>
    intro hd tl heq
    rw [splitOnL.eq_def] at heq
    simp [h] at heq
    simp [heq.1]
  | case2 h =>
    intro hd tl heq
    rw [splitOnL.eq_def] at heq
    simp [h] at heq
    simp [heq.1]
  | case3 h c rest hpre ih =>
    intro hd tl heq
    rw [splitOnL] at heq
    simp only [dif_neg h, if_pos hpre, List.cons.injEq] at heq
    rw [← heq.1]
    exact List.nil_prefix
  | case4 h c rest hpre hnil ih => exact absurd hnil (splitOnL_ne_nil p rest)
  | case5 h c rest hpre hd' tl' hsplit ih =>
    intro hd tl heq
    rw [splitOnL] at heq
    simp only [dif_neg h, if_neg hpre, hsplit, List.cons.injEq] at heq
    rw [← heq.1]
    exact List.cons_prefix_cons.mpr ⟨rfl, ih hd' tl' hsplit⟩

/-- No chunk of the decomposition contains an occurrence of the
pattern: the decomposition finds every occurrence. -/
theorem splitOnL_chunks_clean (p s : List Char) (hp : p ≠ []) :
    ∀ chunk ∈ splitOnL p s, ¬ p <:+: chunk := by
  induction s using splitOnL.induct p with
  | case1 x h => exact absurd h hp
  | case2 h =>
    intro chunk hmem
    rw [splitOnL.eq_def] at hmem
    simp [h] at hmem
    subst hmem
    intro hinf
    exact hp (List.eq_nil_of_infix_nil hinf)
  | case3 h c rest hpre ih =>
    intro chunk hmem
    rw [splitOnL] at hmem
    simp only [dif_neg h, if_pos hpre, List.mem_cons] at hmem
    rcases hmem with rfl | hmem
    · intro hinf
      exact hp (List.eq_nil_of_infix_nil hinf)
    · exact ih chunk hmem
  | case4 h c rest hpre hnil ih => exact absurd hnil (splitOnL_ne_nil p rest)
  | case5 h c rest hpre hd tl hsplit ih =>
    intro chunk hmem
    rw [splitOnL] at hmem
    simp only [dif_neg h, if_neg hpre, hsplit, List.mem_cons] at hmem
    rcases hmem with rfl | hmem
    · intro hinf
      rcases List.infix_cons_iff.mp hinf with hpref | hinf'
      · have hh : hd <+: rest := splitOnL_head_starts p rest hd tl hsplit
        have hcc : (c :: hd) <+: (c :: rest) := List.cons_prefix_cons.mpr ⟨rfl, hh⟩
        have hps : p <+: (c :: rest) := hpref.trans hcc
        rw [← List.isPrefixOf_iff_prefix] at hps
        exact hpre hps
      · exact ih hd (by rw [hsplit]; exact List.mem_cons_self hd tl) hinf'
    · exact ih chunk (by rw [hsplit]; exact List.mem_cons_of_mem hd hmem)

/-- The `.js"` pattern of add-cache-bust.js. -/
def jsPattern : List Char := ".js\"".toList

/-- The `.css"` pattern of add-cache-bust.js. -/
def cssPattern : List Char := ".css\"".toList

/-- The replacement text for `.js"`: `.js?v=<timestamp>"`. -/
def jsReplacement (timestamp : List Char) : List Char :=
  ".js?v=".toList ++ timestamp ++ "\"".toList

/-- The replacement text for `.css"`: `.css?v=<timestamp>"`. -/
def cssReplacement (timestamp : List Char) : List Char :=
  ".css?v=".toList ++ timestamp ++ "\"".toList

/-- add-cache-bust.js (lines 9-12): one timestamp is taken, then
`html.replace(/\.js"/g, `.js?v=ts"`)` followed by
`html.replace(/\.css"/g, `.css?v=ts"`)` with the same timestamp. -/
def addCacheBust (timestamp : List Char) (html : List Char) : List Char :=
  replaceAll cssPattern (cssReplacement timestamp)
    (replaceAll jsPattern (jsReplacement timestamp) html)

example : addCacheBust "17".toList "<a src=\"x.js\">".toList
    = "<a src=\"x.js?v=17\">".toList := by
  simp [addCacheBust, replaceAll, List.isPrefixOf, jsPattern, cssPattern,
    jsReplacement, cssReplacement]

/-!  ## Claim theorems  -/

/-- A guarded four-way JS `||` chain places exactly the first truthy
source. -/
theorem placeIfTruthy_jsOr4 (a b c d : Option String) :
    placeIfTruthy (jsOr (jsOr (jsOr a b) c) d) = firstTruthy [a, b, c, d] := by
  by_cases ha : truthy a <;> by_cases hb : truthy b <;>
    by_cases hc : truthy c <;> by_cases hd : truthy d <;>
      simp [placeIfTruthy, jsOr, firstTruthy, List.find?_cons, ha, hb, hc, hd]

/-- C1 (counterexample): with API auth info holding the empty string as
compId and a session-stored compId, `buildDashboardUrl` places the
session value in the URL, not the first non-null source (which is the
empty string from the API auth info). -/
theorem C1_counterexample :
    (buildDashboardUrlParams (some ⟨none, some "", none, false⟩)
        (some "sessComp") none none none none none false none).1
      ≠ firstSome [some "", some "sessComp", none, none] := by decide

/-- C1 (amended): whenever at least one compId or instance source is
truthy, `buildDashboardUrl` places for each of compId and instance the
first source holding a non-empty string in the priority order
API auth info, session storage, URL parameter, current location;
a component with no truthy source is omitted from the URL. -/
theorem C1_dashboard_priority (authInfo : Option AuthInfo)
    (storedCompId storedInstance urlCompId urlInstance currentCompId currentInstance : Option String)
    (inIframe : Bool) (parentParams : Option (Option String × Option String))
    (h : truthy (selectedCompId authInfo storedCompId urlCompId currentCompId) = true
       ∨ truthy (selectedInstance authInfo storedInstance urlInstance currentInstance) = true) :
    buildDashboardUrlParams authInfo storedCompId storedInstance urlCompId
        urlInstance currentCompId currentInstance inIframe parentParams
      = (firstTruthy [authInfo.bind (·.compId), storedCompId, urlCompId, currentCompId],
         firstTruthy [authInfo.bind (·.instanceToken), storedInstance, urlInstance, currentInstance]) := by
  unfold buildDashboardUrlParams
  rcases h with h | h <;>
    simp [h, selectedCompId, selectedInstance, ← placeIfTruthy_jsOr4] at *

/-- Witness for the amended C1 at a concrete input. -/
theorem C1_dashboard_priority_witness :
    (truthy (selectedCompId none (some "sess") none none) = true
      ∨ truthy (selectedInstance none none (some "tok") none) = true)
    ∧ buildDashboardUrlParams none (some "sess") none none (some "tok")
        none none false none
      = (firstTruthy [none, some "sess", none, none],
         firstTruthy [none, none, some "tok", none]) :=
  ⟨Or.inl (by decide),
   C1_dashboard_priority none (some "sess") none none (some "tok") none none
     false none (Or.inl (by decide))⟩

/-- C2: when `saveUIPreferences` rejects, `saveSettings` raises the
error toast `Failed to save settings`, and on every path (success or
failure) it never writes the settings state. -/
theorem C2_saveSettings_failure (s : Settings) (e : String)
    (inWix : Bool) (wres : Except String Unit) :
    ((saveSettings s (Except.error e) inWix wres).toast
        = some ⟨ToastKind.error, "Failed to save settings"⟩
      ∧ (saveSettings s (Except.error e) inWix wres).settingsAfter = s)
    ∧ ∀ (b : Except String Unit) (iw : Bool) (w : Except String Unit),
        (saveSettings s b iw w).settingsAfter = s := by
  refine ⟨⟨rfl, rfl⟩, ?_⟩
  intro b iw w
  cases b <;> cases iw <;> cases w <;> rfl

/-- C6: `saveSettings` hands `saveUIPreferences` the whole in-memory
settings object, every section included, not a diff. -/
theorem C6_saveSettings_full_payload (s : Settings) (b : Except String Unit)
    (inWix : Bool) (w : Except String Unit) :
    (saveSettings s b inWix w).backendPayload = s
    ∧ (saveSettings s b inWix w).backendPayload.layout = s.layout
    ∧ (saveSettings s b inWix w).backendPayload.appearance = s.appearance
    ∧ (saveSettings s b inWix w).backendPayload.calendar = s.calendar
    ∧ (saveSettings s b inWix w).backendPayload.behavior = s.behavior
    ∧ (saveSettings s b inWix w).backendPayload.uiPreferences = s.uiPreferences := by
  cases b <;> cases inWix <;> cases w <;> exact ⟨rfl, rfl, rfl, rfl, rfl, rfl⟩

/-- C7 (counterexample): `getWixParams` of api.ts with empty session
and local storage returns the literal `default` as the instance — not
the URL `instance` query parameter (the function does not read the URL
at all), so it cannot return a URL value such as `tok123`. -/
theorem C7_counterexample :
    (apiGetWixParams emptyStorage emptyStorage) "instance" = some "default"
    ∧ (apiGetWixParams emptyStorage emptyStorage) "instance" ≠ some "tok123" := by
  exact ⟨rfl, by decide⟩

/-- C7 (amended): `buildDashboardUrl` resolves the instance to the URL
`instance` query parameter when the auth cache and session storage are
empty, and wix-integration takes its module-load instance token from
the URL parameter; but the axios-level `getWixParams` of api.ts falls
back to the literal `default` instead (see the counterexample). -/
theorem C7_url_instance_fallback (urlInstance : String)
    (h : urlInstance ≠ "") (currentInstance : Option String) :
    selectedInstance none none (some urlInstance) currentInstance = some urlInstance
    ∧ (buildDashboardUrlParams none none none none (some urlInstance) none
        currentInstance false none).2 = some urlInstance
    ∧ (moduleInitState (some urlInstance)).instanceToken = some urlInstance := by
  have ht : truthy (some urlInstance) = true := by simp [truthy, h]
  refine ⟨?_, ?_, ?_⟩
  · simp [selectedInstance, jsOr, truthy, h]
  · unfold buildDashboardUrlParams
    simp [selectedInstance, selectedCompId, jsOr, truthy, ht, placeIfTruthy, h]
  · simp [moduleInitState, ht]

/-- Witness for the amended C7 at a concrete input. -/
theorem C7_url_instance_fallback_witness :
    ("tok" ≠ "")
    ∧ (buildDashboardUrlParams none none none none (some "tok") none none
        false none).2 = some "tok" :=
  ⟨by decide, (C7_url_instance_fallback "tok" (by decide) none).2.1⟩

/-- C10: `decodeWixInstance` is total and never throws: it returns the
JSON value parsed from the base64-decoded segment of the input before
the first `'.'`, and `none` (JS `null`) whenever decoding or parsing
fails. -/
theorem C10_decodeWixInstance_total {J : Type}
    (atobFn : List Char → Except Unit (List Char))
    (jsonParseFn : List Char → Except Unit J) (inst : List Char) :
    decodeWixInstance atobFn jsonParseFn inst
      = match atobFn (inst.takeWhile (· ≠ '.')) with
        | .error _ => none
        | .ok d => (jsonParseFn d).toOption := by
  unfold decodeWixInstance
  rw [jsSplitChar_headD]
  simp only [ne_eq, decide_not]
  rcases h : atobFn (List.takeWhile (fun x => !decide (x = '.')) inst) with e | d
  · simp [h]
  · rcases hp : jsonParseFn d with e | v <;> simp [h, hp, Except.toOption]

/-- The `X-Tenant-Id` header produced by `getWixHeaders` is always
present, built from the falsy-defaulted compId and instance. -/
theorem getWixHeaders_tenant (sess loc : Storage) :
    (getWixHeaders sess loc) "X-Tenant-Id"
      = some (jsOrD (jsOr (sess "wixCompId") (loc "wixCompId")) "default"
          ++ "_" ++ jsOrD (jsOr (sess "wixInstance") (loc "wixInstance")) "default") := by
  simp [getWixHeaders, hset]

theorem apiGetWixParams_compId (sess loc : Storage) :
    (apiGetWixParams sess loc) "compId"
      = some (jsOrD (jsOr (sess "wixCompId") (loc "wixCompId")) "default") := by
  simp [apiGetWixParams, hset]

theorem apiGetWixParams_instance (sess loc : Storage) :
    (apiGetWixParams sess loc) "instance"
      = some (jsOrD (jsOr (sess "wixInstance") (loc "wixInstance")) "default") := by
  simp [apiGetWixParams, hset]

/-- C9 (counterexample): with an empty-string compId cached in session
storage, `getWixHeaders` produces the tenant id `default_default`,
whereas the claim's formula (components replaced by `default` only when
absent) yields `_default`. -/
theorem C9_counterexample :
    (getWixHeaders (fun k => if k = "wixCompId" then some "" else none)
        emptyStorage) "X-Tenant-Id" = some "default_default"
    ∧ ((fun k => if k = "wixCompId" then some "" else none : Storage) "wixCompId").getD "default"
        ++ "_" ++ (emptyStorage "wixInstance").getD "default" = "_default" := by
  exact ⟨rfl, rfl⟩

/-- C9 (amended): every request through the axios client carries an
`X-Tenant-Id` header equal to the compId and instance joined by an
underscore, each component replaced by the literal `default` when it is
absent or empty; the request interceptor attaches this header and the
compId/instance query parameters to every outgoing request, overriding
any caller-supplied values for those keys. -/
theorem C9_tenant_header_always (sess loc : Storage) (headers params : HMap)
    (authToken : Option String) :
    (getWixHeaders sess loc) "X-Tenant-Id"
      = some (jsOrD (jsOr (sess "wixCompId") (loc "wixCompId")) "default"
          ++ "_" ++ jsOrD (jsOr (sess "wixInstance") (loc "wixInstance")) "default")
    ∧ (requestInterceptor sess loc authToken headers params).1 "X-Tenant-Id"
        = some (jsOrD (jsOr (sess "wixCompId") (loc "wixCompId")) "default"
            ++ "_" ++ jsOrD (jsOr (sess "wixInstance") (loc "wixInstance")) "default")
    ∧ (requestInterceptor sess loc authToken headers params).2 "compId"
        = some (jsOrD (jsOr (sess "wixCompId") (loc "wixCompId")) "default")
    ∧ (requestInterceptor sess loc authToken headers params).2 "instance"
        = some (jsOrD (jsOr (sess "wixInstance") (loc "wixInstance")) "default") := by
  refine ⟨getWixHeaders_tenant sess loc, ?_, ?_, ?_⟩
  · cases authToken <;>
      simp [requestInterceptor, hmerge, hset, getWixHeaders_tenant]
  · cases authToken <;>
      simp [requestInterceptor, hmerge, hset, apiGetWixParams_compId]
  · cases authToken <;>
      simp [requestInterceptor, hmerge, hset, apiGetWixParams_instance]

/-- C3 (counterexample): with no host-SDK fetch client and no stored
auth token, the fallback request is issued through axios with no
`Authorization` bearer header at all. -/
theorem C3_counterexample :
    (makeAuthenticatedRequest false false emptyStorage emptyStorage none
        "/settings/ui-preferences" emptyOptions).length = 1
    ∧ ((makeAuthenticatedRequest false false emptyStorage emptyStorage none
        "/settings/ui-preferences" emptyOptions).headD
          ⟨Transport.axios, "", hempty, hempty, none⟩).transport = Transport.axios
    ∧ ((makeAuthenticatedRequest false false emptyStorage emptyStorage none
        "/settings/ui-preferences" emptyOptions).headD
          ⟨Transport.axios, "", hempty, hempty, none⟩).headers "Authorization"
        = none := by
  exact ⟨rfl, rfl, rfl⟩

/-- C3 (amended): the wrapper tries the host-SDK authenticated fetch
first when the Wix client provides one and otherwise (or on its
failure) falls back to the axios client; the axios fallback attaches a
bearer `Authorization` header exactly when an auth token is stored; and
every outbound request carries the identity header `X-Tenant-Id` and
the compId/instance query parameters (assuming the caller options do
not override the tenant header). -/
theorem C3_authenticated_request (hasWixFetch wixFetchOk : Bool)
    (sess loc : Storage) (authToken : Option String) (url : String)
    (options : RequestOptions)
    (hTenant : options.headers "X-Tenant-Id" = none) :
    (makeAuthenticatedRequest hasWixFetch wixFetchOk sess loc authToken url options ≠ [])
    ∧ ((makeAuthenticatedRequest hasWixFetch wixFetchOk sess loc authToken url
          options).headD ⟨Transport.axios, "", hempty, hempty, none⟩).transport
        = (if hasWixFetch then Transport.wixFetchWithAuth else Transport.axios)
    ∧ (∀ r ∈ makeAuthenticatedRequest hasWixFetch wixFetchOk sess loc authToken url options,
        r.headers "X-Tenant-Id"
          = some (jsOrD (jsOr (sess "wixCompId") (loc "wixCompId")) "default"
              ++ "_" ++ jsOrD (jsOr (sess "wixInstance") (loc "wixInstance")) "default")
        ∧ r.params "compId"
            = some (jsOrD (jsOr (sess "wixCompId") (loc "wixCompId")) "default")
        ∧ r.params "instance"
            = some (jsOrD (jsOr (sess "wixInstance") (loc "wixInstance")) "default")
        ∧ r.path = url)
    ∧ (∀ t, authToken = some t →
        ∀ r ∈ makeAuthenticatedRequest hasWixFetch wixFetchOk sess loc authToken url options,
          r.transport = Transport.axios →
          r.headers "Authorization" = some ("Bearer " ++ t)) := by
  have hwixT : (wixFetchRequest sess loc url options).headers "X-Tenant-Id"
      = some (jsOrD (jsOr (sess "wixCompId") (loc "wixCompId")) "default"
          ++ "_" ++ jsOrD (jsOr (sess "wixInstance") (loc "wixInstance")) "default") := by
    simp [wixFetchRequest, hmerge, hTenant, getWixHeaders_tenant]
  have hwixC : (wixFetchRequest sess loc url options).params "compId"
      = some (jsOrD (jsOr (sess "wixCompId") (loc "wixCompId")) "default") := by
    simp [wixFetchRequest, apiGetWixParams_compId]
  have hwixI : (wixFetchRequest sess loc url options).params "instance"
      = some (jsOrD (jsOr (sess "wixInstance") (loc "wixInstance")) "default") := by
    simp [wixFetchRequest, apiGetWixParams_instance]
  have haxT : (axiosFallbackRequest sess loc authToken url options).headers "X-Tenant-Id"
      = some (jsOrD (jsOr (sess "wixCompId") (loc "wixCompId")) "default"
          ++ "_" ++ jsOrD (jsOr (sess "wixInstance") (loc "wixInstance")) "default") := by
    cases authToken <;>
      simp [axiosFallbackRequest, requestInterceptor, hmerge, hset, getWixHeaders_tenant]
  have haxC : (axiosFallbackRequest sess loc authToken url options).params "compId"
      = some (jsOrD (jsOr (sess "wixCompId") (loc "wixCompId")) "default") := by
    cases authToken <;>
      simp [axiosFallbackRequest, requestInterceptor, hmerge, hset, apiGetWixParams_compId]
  have haxI : (axiosFallbackRequest sess loc authToken url options).params "instance"
      = some (jsOrD (jsOr (sess "wixInstance") (loc "wixInstance")) "default") := by
    cases authToken <;>
      simp [axiosFallbackRequest, requestInterceptor, hmerge, hset, apiGetWixParams_instance]
  refine ⟨?_, ?_, ?_, ?_⟩
  · cases hasWixFetch <;> cases wixFetchOk <;>
      simp [makeAuthenticatedRequest]
  · cases hasWixFetch <;> cases wixFetchOk <;>
      simp [makeAuthenticatedRequest, wixFetchRequest, axiosFallbackRequest]
  · intro r hr
    cases hasWixFetch <;> cases wixFetchOk <;>
      simp only [makeAuthenticatedRequest, Bool.false_eq_true, if_false, if_true,
        List.mem_cons, List.not_mem_nil, or_false] at hr
    · rcases hr with rfl | rfl
      exact ⟨haxT, haxC, haxI, rfl⟩
    · rcases hr with rfl | rfl
      exact ⟨haxT, haxC, haxI, rfl⟩
    · rcases hr with rfl | rfl
      · exact ⟨hwixT, hwixC, hwixI, rfl⟩
      · exact ⟨haxT, haxC, haxI, rfl⟩
    · rcases hr with rfl | rfl
      exact ⟨hwixT, hwixC, hwixI, rfl⟩
  · intro t ht r hr htr
    subst ht
    have haxA : (axiosFallbackRequest sess loc (some t) url options).headers "Authorization"
        = some ("Bearer " ++ t) := by
      simp [axiosFallbackRequest, requestInterceptor, hmerge, hset]
    cases hasWixFetch <;> cases wixFetchOk <;>
      simp only [makeAuthenticatedRequest, Bool.false_eq_true, if_false, if_true,
        List.mem_cons, List.not_mem_nil, or_false] at hr
    · rcases hr with rfl | rfl
      exact haxA
    · rcases hr with rfl | rfl
      exact haxA
    · rcases hr with rfl | rfl
      · exact absurd htr (by simp [wixFetchRequest])
      · exact haxA
    · rcases hr with rfl | rfl
      exact absurd htr (by simp [wixFetchRequest])

/-- Witness for the amended C3 at a concrete input. -/
theorem C3_authenticated_request_witness :
    (emptyOptions.headers "X-Tenant-Id" = none)
    ∧ ((makeAuthenticatedRequest true true emptyStorage emptyStorage none
        "/settings" emptyOptions).headD
          ⟨Transport.axios, "", hempty, hempty, none⟩).transport
        = (if true then Transport.wixFetchWithAuth else Transport.axios) :=
  ⟨rfl,
   (C3_authenticated_request true true emptyStorage emptyStorage none
     "/settings" emptyOptions rfl).2.1⟩

/-- A generated component id is never the empty string. -/
theorem generateCompId_ne_empty (now : Nat) (draws : List Nat) :
    generateCompId now draws ≠ "" := by
  unfold generateCompId
  intro h
  have hlen := congrArg String.length h
  simp [String.length_append] at hlen

/-- C4: from the module-load state, `initializeWixClient` always
terminates with a truthy (non-null, non-empty) compId and returns a
boolean: `false` exactly when the SDK client creation threw, `true`
otherwise; and the final compId is either the generated placeholder or
a truthy compId obtained from the widget props. -/
theorem C4_initializeWixClient_total (urlInstance : Option String) (env : SdkEnv) :
    truthy (initializeWixClient (moduleInitState urlInstance) env).2.compId = true
    ∧ (initializeWixClient (moduleInitState urlInstance) env).2.compId.isSome = true
    ∧ (initializeWixClient (moduleInitState urlInstance) env).2.isInitialized = true
    ∧ (∀ e, env.createClient = Except.error e →
        (initializeWixClient (moduleInitState urlInstance) env).1 = false)
    ∧ (∀ caps, env.createClient = Except.ok caps →
        (initializeWixClient (moduleInitState urlInstance) env).1 = true)
    ∧ ((initializeWixClient (moduleInitState urlInstance) env).2.compId
          = some (generateCompId env.now env.draws)
        ∨ ∃ caps pc, env.createClient = Except.ok caps
            ∧ caps.getPropCompId = Except.ok pc ∧ truthy pc = true
            ∧ (initializeWixClient (moduleInitState urlInstance) env).2.compId = pc) := by
  have hgen : truthy (some (generateCompId env.now env.draws)) = true := by
    simp [truthy, generateCompId_ne_empty]
  obtain ⟨cc, now, draws⟩ := env
  rcases cc with e | caps
  · refine ⟨?_, ?_, ?_, ?_, ?_, ?_⟩ <;>
      simp_all [initializeWixClient, moduleInitState, truthy]
  · obtain ⟨hgp, hsp, gpc, gpi, spo⟩ := caps
    cases hgp
    · refine ⟨?_, ?_, ?_, ?_, ?_, ?_⟩ <;>
        simp_all [initializeWixClient, moduleInitState, truthy]
    · rcases gpc with e2 | pc
      · refine ⟨?_, ?_, ?_, ?_, ?_, ?_⟩ <;>
          simp_all [initializeWixClient, moduleInitState, truthy]
      · by_cases hpc : truthy pc
        · have hps : pc.isSome = true := by
            cases pc <;> simp_all [truthy]
          rcases gpi with e3 | pi <;>
            refine ⟨?_, ?_, ?_, ?_, ?_, ?_⟩ <;>
              simp_all [initializeWixClient, moduleInitState]
        · rcases gpi with e3 | pi <;>
            refine ⟨?_, ?_, ?_, ?_, ?_, ?_⟩ <;>
              simp_all [initializeWixClient, moduleInitState, truthy]

/-- Witness for C4 at a concrete input: SDK init fails, yet the run
returns `false` (no exception) and a generated compId. -/
theorem C4_initializeWixClient_total_witness :
    (initializeWixClient (moduleInitState none)
        ⟨Except.error (), 5, [0, 1]⟩).1 = false
    ∧ (initializeWixClient (moduleInitState none)
        ⟨Except.error (), 5, [0, 1]⟩).2.compId.isSome = true := by
  refine ⟨(C4_initializeWixClient_total none ⟨Except.error (), 5, [0, 1]⟩).2.2.2.1 () rfl,
    (C4_initializeWixClient_total none ⟨Except.error (), 5, [0, 1]⟩).2.1⟩

/-- The widget-prop writes of `updateWidgetConfig` never touch a key
outside the given config. -/
theorem updateWidgetConfig_writes_subkeys {α : Type} (hasSetProp : Bool)
    (setPropOk : String → Bool) (config : List (String × α)) :
    ((updateWidgetConfig hasSetProp setPropOk config).2.map Prod.fst).Sublist
      (config.map Prod.fst) := by
  unfold updateWidgetConfig
  cases hasSetProp
  · simp
  · simpa using (List.takeWhile_sublist _).map Prod.fst

/-- C5: the preview update pushed by `updateSetting` has at most one
entry; off the whitelist nothing is pushed; on the whitelist exactly
the flattened key of the changed field is pushed (only in the Wix
environment), and the widget-prop store writes stay within those
keys. -/
theorem C5_updateSetting_preview_push {α : Type} (section_ key : String)
    (value : α) (inWix hasSetProp : Bool) (setPropOk : String → Bool) :
    (pushedUpdate section_ key value inWix).length ≤ 1
    ∧ (flatKeyFor section_ key = none → pushedUpdate section_ key value inWix = [])
    ∧ (∀ fk, flatKeyFor section_ key = some fk →
        pushedUpdate section_ key value inWix
          = if inWix then [(fk, value)] else [])
    ∧ ((updateWidgetConfig hasSetProp setPropOk
          (pushedUpdate section_ key value inWix)).2.map Prod.fst).Sublist
        ((pushedUpdate section_ key value inWix).map Prod.fst) := by
  have hfe := flattenedUpdate_eq_flatKeyFor section_ key value
  refine ⟨?_, ?_, ?_, updateWidgetConfig_writes_subkeys hasSetProp setPropOk _⟩
  · rcases hk : flatKeyFor section_ key with _ | fk <;>
      rw [hk] at hfe <;>
        cases inWix <;>
          simp [pushedUpdate, hfe]
  · intro hk
    rw [hk] at hfe
    simp [pushedUpdate, hfe]
  · intro fk hk
    rw [hk] at hfe
    cases inWix <;> simp [pushedUpdate, hfe]

/-- Witness for C5 at a concrete input. -/
theorem C5_updateSetting_preview_push_witness :
    pushedUpdate "behavior" "animationsEnabled" (0 : Nat) true
      = [("animations", 0)] := by
  have h := (C5_updateSetting_preview_push "behavior" "animationsEnabled"
    (0 : Nat) true true (fun _ => true)).2.2.1 "animations" (by rfl)
  simpa using h

/-- C8: the cache-busting script is a pure text substitution with one
shared timestamp.  The built HTML decomposes into `.js"`-free chunks
joined by `.js"` occurrences (conjunct 2, no character lost; conjunct
4, every occurrence found); the first substitution rejoins exactly
those chunks with `.js?v=<timestamp>"`; the intermediate result then
decomposes the same way at `.css"` (conjuncts 3 and 5) and the final
output rejoins those chunks with `.css?v=<timestamp>"` — the same
timestamp in both replacements (conjunct 1). -/
theorem C8_addCacheBust_pure_substitution (timestamp html : List Char) :
    addCacheBust timestamp html
      = intercalateL (cssReplacement timestamp)
          (splitOnL cssPattern
            (intercalateL (jsReplacement timestamp) (splitOnL jsPattern html)))
    ∧ intercalateL jsPattern (splitOnL jsPattern html) = html
    ∧ intercalateL cssPattern
        (splitOnL cssPattern
          (intercalateL (jsReplacement timestamp) (splitOnL jsPattern html)))
      = intercalateL (jsReplacement timestamp) (splitOnL jsPattern html)
    ∧ (∀ chunk ∈ splitOnL jsPattern html, ¬ jsPattern <:+: chunk)
    ∧ (∀ chunk ∈ splitOnL cssPattern
        (intercalateL (jsReplacement timestamp) (splitOnL jsPattern html)),
        ¬ cssPattern <:+: chunk) := by
  refine ⟨?_, ?_, ?_, ?_, ?_⟩
  · unfold addCacheBust
    rw [replaceAll_eq_intercalateL, replaceAll_eq_intercalateL]
  · exact intercalateL_splitOnL _ _
  · exact intercalateL_splitOnL _ _
  · exact splitOnL_chunks_clean _ _ (by decide)
  · exact splitOnL_chunks_clean _ _ (by decide)

/-- Witness for C8 at a concrete input, discharging the membership
hypothesis of the chunk conjunct: the chunk before the `.js"` match in
`<a src="x.js">` contains no further occurrence. -/
theorem C8_addCacheBust_pure_substitution_witness :
    ("<a src=\"x".toList ∈ splitOnL jsPattern "<a src=\"x.js\">".toList)
    ∧ ¬ jsPattern <:+: "<a src=\"x".toList := by
  have hsplit : splitOnL jsPattern "<a src=\"x.js\">".toList
      = ["<a src=\"x".toList, ">".toList] := by
    simp [splitOnL, List.isPrefixOf, jsPattern]
  have hmem : "<a src=\"x".toList ∈ splitOnL jsPattern "<a src=\"x.js\">".toList := by
    rw [hsplit]
    exact List.mem_cons_self _ _
  exact ⟨hmem,
    (C8_addCacheBust_pure_substitution "17".toList "<a src=\"x.js\">".toList).2.2.2.1
      "<a src=\"x".toList hmem⟩
